import Mathlib

/-!
Verification of the extent-accumulator core of the air-traffic plotting
utilities (ECTL_RD/ectl_plots_utilities.py and OPDI/opdi_plots_utilities.py).

The embedded core is the incremental geographic-extent accumulator shared by
`plot_route` and `plot_trajectory`: a running bounding box over projected
(Web Mercator) planar coordinates, merged pointwise with each new feature's
bounds, from which a padded view window and geographic tick labels are
derived.  Coordinates are modelled by `ℚ`; the Python floats only undergo
min/max, subtraction, multiplication by the literal paddings 0.2 / 0.3 and
linear interpolation, all exact on the rationals used here.
-/

namespace ECTL

/-- A planar bounding box in the projected coordinate system, the four
numbers `ax._xmin, ax._xmax, ax._ymin, ax._ymax` of `plot_route` /
`plot_trajectory` (and `xmin, xmax, ymin, ymax` of `plot_airspace`). -/
@[ext]
structure BoundingBox where
  x_min : ℚ
  x_max : ℚ
  y_min : ℚ
  y_max : ℚ
deriving DecidableEq

/-- The extent state attached to a drawing surface: `none` models the
freshly initialised axes (`ax._xmin, ax._xmax, ax._ymin, ax._ymax = None`,
ectl_plots_utilities.py line 119 / 238 — the four attributes are always
initialised and assigned together, so one optional box captures them). -/
abbrev CanvasExtentState := Option BoundingBox

/-- The bounds-update block of `plot_route` (lines 136-140) and
`plot_trajectory` (lines 259-263):

    ax._xmin = xmin_f if ax._xmin is None else min(ax._xmin, xmin_f)
    ax._xmax = xmax_f if ax._xmax is None else max(ax._xmax, xmax_f)
    ax._ymin = ymin_f if ax._ymin is None else min(ax._ymin, ymin_f)
    ax._ymax = ymax_f if ax._ymax is None else max(ax._ymax, ymax_f)
-/
def merge (state : CanvasExtentState) (feature_box : BoundingBox) :
    CanvasExtentState :=
  match state with
  | none => some feature_box
  | some e =>
      some ⟨min e.x_min feature_box.x_min, max e.x_max feature_box.x_max,
            min e.y_min feature_box.y_min, max e.y_max feature_box.y_max⟩

/-- The error taxonomy of the component: `invalidInput` embeds the
`ValueError` raised by `plot_airspace` (line 30), `emptyState` embeds the
`TypeError` that `None`-arithmetic in the padding computation would raise
were it reached with no feature merged. -/
inductive PlotError where
  | invalidInput : String → PlotError
  | emptyState : PlotError
deriving DecidableEq

/-- The padded-limit computation of `plot_route` (lines 143-146, repeated at
153-156) and `plot_trajectory` (lines 266-269):

    x_pad = (ax._xmax - ax._xmin) * padding
    y_pad = (ax._ymax - ax._ymin) * padding
    ax.set_xlim(ax._xmin - x_pad, ax._xmax + x_pad)
    ax.set_ylim(ax._ymin - y_pad, ax._ymax + y_pad)

On an empty state the Python subtraction `None - None` raises immediately and
returns no window; this is the empty-state error. -/
def derive_view_window (state : CanvasExtentState) (padding_fraction : ℚ) :
    Except PlotError BoundingBox :=
  match state with
  | none => Except.error PlotError.emptyState
  | some e =>
      let x_pad := (e.x_max - e.x_min) * padding_fraction
      let y_pad := (e.y_max - e.y_min) * padding_fraction
      Except.ok ⟨e.x_min - x_pad, e.x_max + x_pad, e.y_min - y_pad, e.y_max + y_pad⟩

/-- The literal `0.2` of the route call site (`plot_route` lines 143-144). -/
def route_padding_fraction : ℚ := 2 / 10

/-- The literal `0.3` of the trajectory call site (`plot_trajectory` lines
266-267). -/
def trajectory_padding_fraction : ℚ := 3 / 10

/-- The bounds-update block of `plot_route` / `plot_trajectory` viewed in the
error monad: the block consists only of `min` / `max` / `None`-tests on
numeric inputs and contains no validation and no raise, so every call
returns normally with the pointwise merge. -/
def mergeE (state : CanvasExtentState) (feature_box : BoundingBox) :
    Except PlotError CanvasExtentState :=
  Except.ok (merge state feature_box)

/-- The geometry guard of `plot_airspace` (ectl_plots_utilities.py lines
28-30), applied to the number of vertex rows in the (possibly filtered)
subset:

    if len(subset) < 3:
        raise ValueError("Not enough points to build a polygon ...")
-/
def plot_airspace_guard (n : ℕ) : Except PlotError Unit :=
  if n < 3 then
    Except.error (PlotError.invalidInput
      ("Not enough points to build a polygon (need >=3, got " ++ toString n ++ ")"))
  else Except.ok ()

/-- The empty-selection guard of `plot_flight_trajectory_events`
(opdi_plots_utilities.py lines 23-26), applied to the number of rows matching
the requested flight:

    if df.empty:
        print(f"No data found ...")
        return

An empty selection produces a normal early return carrying `None` (modelled
`Except.ok none`), not an exception; a non-empty one proceeds. -/
def plot_flight_trajectory_events_guard (n : ℕ) : Except PlotError (Option Unit) :=
  if n = 0 then Except.ok none else Except.ok (some ())

/-- A box satisfying the documented invariant `x_min ≤ x_max ∧ y_min ≤ y_max`. -/
def Nondegenerate (b : BoundingBox) : Prop :=
  b.x_min ≤ b.x_max ∧ b.y_min ≤ b.y_max

instance (b : BoundingBox) : Decidable (Nondegenerate b) := by
  unfold Nondegenerate; infer_instance

/-- `np.linspace a b n`: `n` evenly spaced samples from `a` to `b` inclusive
(step `(b - a) / (n - 1)`), as used at lines 163-166 / 99-102 / 282-285. -/
def linspace (a b : ℚ) (n : ℕ) : List ℚ :=
  (List.range n).map fun i => a + (b - a) * (i : ℚ) / ((n : ℚ) - 1)

/-- The label formatting `f"{v:.1f}°"`: one decimal place and a degree
suffix (ties of the decimal rounding taken upward, a modelling choice
immaterial to the claims checked here). -/
def fmtDeg (q : ℚ) : String :=
  let n : ℤ := round (q * 10)
  let sign := if n < 0 then "-" else ""
  sign ++ toString (n.natAbs / 10) ++ "." ++ toString (n.natAbs % 10) ++ "°"

/-- Tick positions (projected coordinates) and label strings for both axes. -/
structure TickLabelSet where
  xticks : List ℚ
  yticks : List ℚ
  xlabels : List String
  ylabels : List String
deriving DecidableEq

/-- The relabelling block of `plot_route` lines 158-166 (same code at
`plot_airspace` 88-102, `plot_trajectory` 277-285, OPDI 64-72): only the two
corner points `(xlim[0], ylim[0])` and `(xlim[1], ylim[1])` are run through
the projection service `transform`; the six tick positions are
`np.linspace` over the projected limits, and the six labels per axis are
`np.linspace` between the two transformed corner values, each formatted by
`fmtDeg`. -/
def derive_tick_labels (transform : ℚ → ℚ → ℚ × ℚ) (view_window : BoundingBox) :
    TickLabelSet :=
  let lonlat_min := transform view_window.x_min view_window.y_min
  let lonlat_max := transform view_window.x_max view_window.y_max
  { xticks := linspace view_window.x_min view_window.x_max 6
    yticks := linspace view_window.y_min view_window.y_max 6
    xlabels := (linspace lonlat_min.1 lonlat_max.1 6).map fmtDeg
    ylabels := (linspace lonlat_min.2 lonlat_max.2 6).map fmtDeg }

/-- A string consisting of some prefix, a decimal point, exactly one digit
and a degree suffix. -/
def OneDecimalDegreeLabel (s : String) : Prop :=
  ∃ pre d, d < 10 ∧ s = pre ++ "." ++ toString d ++ "°"

theorem merge_right_comm (s : CanvasExtentState) (a b : BoundingBox) :
    merge (merge s a) b = merge (merge s b) a := by
  cases s with
  | none => simp [merge, min_comm, max_comm]
  | some e =>
      simp [merge]
      exact ⟨min_right_comm _ _ _, sup_right_comm _ _ _,
             min_right_comm _ _ _, sup_right_comm _ _ _⟩

instance : RightCommutative merge := ⟨merge_right_comm⟩

theorem linspace_six (a b : ℚ) :
    linspace a b 6 = [a, a + (b - a) / 5, a + (b - a) * 2 / 5, a + (b - a) * 3 / 5,
      a + (b - a) * 4 / 5, b] := by
  simp [linspace, List.range_succ]
  norm_num

theorem fmtDeg_oneDecimal (q : ℚ) : OneDecimalDegreeLabel (fmtDeg q) :=
  ⟨(if round (q * 10) < 0 then "-" else "") ++ toString ((round (q * 10)).natAbs / 10),
   (round (q * 10)).natAbs % 10,
   Nat.mod_lt _ (by norm_num),
   by simp [fmtDeg, String.append_assoc]⟩

/-- C1: merging a feature box into an empty extent state yields exactly that
box; merging into a non-empty state takes the pointwise `min` of the minima
and `max` of the maxima on both axes. -/
theorem merge_empty_and_pointwise (e b : BoundingBox) :
    merge none b = some b ∧
    merge (some e) b =
      some ⟨min e.x_min b.x_min, max e.x_max b.x_max,
            min e.y_min b.y_min, max e.y_max b.y_max⟩ :=
  ⟨rfl, rfl⟩

/-- C2: folding any sequence of non-degenerate feature boxes into the empty
extent state gives the same final extent for every permutation of the
sequence: the merge is commutative and associative. -/
theorem merge_fold_perm_invariant (l₁ l₂ : List BoundingBox)
    (_hnd : ∀ b ∈ l₁, Nondegenerate b) (hp : l₁.Perm l₂) :
    l₁.foldl merge none = l₂.foldl merge none :=
  hp.foldl_eq none

/-- Witness for C2 at the two-element sequences `[A, B]` and `[B, A]`. -/
theorem merge_fold_perm_invariant_witness :
    (∀ b ∈ [(⟨0, 1, 0, 1⟩ : BoundingBox), ⟨2, 3, 2, 3⟩], Nondegenerate b) ∧
    ([(⟨0, 1, 0, 1⟩ : BoundingBox), ⟨2, 3, 2, 3⟩].Perm
      [(⟨2, 3, 2, 3⟩ : BoundingBox), ⟨0, 1, 0, 1⟩]) ∧
    [(⟨0, 1, 0, 1⟩ : BoundingBox), ⟨2, 3, 2, 3⟩].foldl merge none =
      [(⟨2, 3, 2, 3⟩ : BoundingBox), ⟨0, 1, 0, 1⟩].foldl merge none :=
  ⟨by decide, List.Perm.swap _ _ _,
   merge_fold_perm_invariant _ _ (by decide) (List.Perm.swap _ _ _)⟩

/-- C3 counterexample: the degenerate box `⟨5, 3, 0, 1⟩` has `x_min > x_max`,
yet the bounds-update block of `plot_route` / `plot_trajectory` returns
normally with the silent pointwise merge instead of an invalid-input error:
no validation exists in the code. -/
theorem mergeE_degenerate_not_rejected :
    (⟨5, 3, 0, 1⟩ : BoundingBox).x_max < (⟨5, 3, 0, 1⟩ : BoundingBox).x_min ∧
    mergeE (some ⟨0, 10, 0, 5⟩) ⟨5, 3, 0, 1⟩ = Except.ok (some ⟨0, 10, 0, 5⟩) := by
  constructor
  · decide
  · show Except.ok (merge (some ⟨0, 10, 0, 5⟩) ⟨5, 3, 0, 1⟩) = _
    rw [show merge (some ⟨0, 10, 0, 5⟩) ⟨5, 3, 0, 1⟩ = some ⟨0, 10, 0, 5⟩ by decide]

/-- C3 amended: the merge operation performs no validation at all: a feature
box with `x_min > x_max` is silently merged pointwise into a non-empty state
and adopted as-is on an empty state; no error is ever raised. -/
theorem mergeE_degenerate_silent_merge (e b : BoundingBox)
    (_hdeg : b.x_max < b.x_min) :
    mergeE (some e) b =
      Except.ok (some ⟨min e.x_min b.x_min, max e.x_max b.x_max,
                       min e.y_min b.y_min, max e.y_max b.y_max⟩) ∧
    mergeE none b = Except.ok (some b) :=
  ⟨rfl, rfl⟩

/-- Witness for the amended C3 at the degenerate box `⟨5, 3, 0, 1⟩`. -/
theorem mergeE_degenerate_silent_merge_witness :
    (⟨5, 3, 0, 1⟩ : BoundingBox).x_max < (⟨5, 3, 0, 1⟩ : BoundingBox).x_min ∧
    (mergeE (some ⟨0, 10, 0, 5⟩) ⟨5, 3, 0, 1⟩ =
      Except.ok (some ⟨min 0 5, max 10 3, min 0 0, max 5 1⟩) ∧
     mergeE none ⟨5, 3, 0, 1⟩ = Except.ok (some ⟨5, 3, 0, 1⟩)) :=
  ⟨by decide, mergeE_degenerate_silent_merge ⟨0, 10, 0, 5⟩ ⟨5, 3, 0, 1⟩ (by decide)⟩

/-- C4 counterexample: in the spec's concrete scenario the derived view
window is not the claimed `{x:[-3,18], y:[-1.4,6.4]}`: the y padding is
`0.2 × 7 = 1.4`, so the padded lower bound is `-2 - 1.4 = -3.4`, not `-1.4`. -/
theorem scenario_window_not_spec_value :
    derive_view_window (merge (merge none ⟨0, 10, 0, 5⟩) ⟨5, 15, -2, 3⟩) (2 / 10) ≠
      Except.ok ⟨-3, 18, -7 / 5, 32 / 5⟩ := by
  simp [derive_view_window, merge]
  norm_num

/-- C4 amended: merging `{x:[0,10], y:[0,5]}` then `{x:[5,15], y:[-2,3]}`
into the empty state yields `{x:[0,15], y:[-2,5]}`, and the view window at
padding 0.2 is `{x:[-3,18], y:[-3.4,6.4]}`. -/
theorem scenario_merge_then_padded_window :
    merge (merge none ⟨0, 10, 0, 5⟩) ⟨5, 15, -2, 3⟩ = some ⟨0, 15, -2, 5⟩ ∧
    derive_view_window (merge (merge none ⟨0, 10, 0, 5⟩) ⟨5, 15, -2, 3⟩) (2 / 10) =
      Except.ok ⟨-3, 18, -17 / 5, 32 / 5⟩ := by
  constructor
  · decide
  · simp [derive_view_window, merge]
    norm_num

/-- C5: on a non-empty state the view window is the extent expanded
symmetrically on each axis by `padding_fraction × (max − min)` of that axis;
with padding 0 it is the extent itself; a zero-width x axis stays zero-width;
the route call site uses 0.2 and the trajectory call site 0.3. -/
theorem derive_view_window_padding_spec (e : BoundingBox) (p : ℚ) :
    derive_view_window (some e) p =
      Except.ok ⟨e.x_min - (e.x_max - e.x_min) * p, e.x_max + (e.x_max - e.x_min) * p,
                 e.y_min - (e.y_max - e.y_min) * p, e.y_max + (e.y_max - e.y_min) * p⟩ ∧
    derive_view_window (some e) 0 = Except.ok e ∧
    (e.x_min = e.x_max →
      derive_view_window (some e) p =
        Except.ok ⟨e.x_min, e.x_min,
                   e.y_min - (e.y_max - e.y_min) * p, e.y_max + (e.y_max - e.y_min) * p⟩) ∧
    route_padding_fraction = 2 / 10 ∧
    trajectory_padding_fraction = 3 / 10 := by
  refine ⟨rfl, ?_, ?_, rfl, rfl⟩
  · simp [derive_view_window]
  · intro h
    simp [derive_view_window, h]

/-- C6: for every projection service and every view window (degenerate ones
included) the relabelling block produces exactly 6 tick positions per axis,
evenly spaced and inclusive of both endpoints in projected coordinates, and
exactly 6 labels per axis obtained by projecting only the two corner points
and linearly interpolating 6 evenly spaced values between the two projected
endpoints, each label a one-decimal string with a degree suffix. -/
theorem derive_tick_labels_spec (t : ℚ → ℚ → ℚ × ℚ) (w : BoundingBox) :
    (derive_tick_labels t w).xticks.length = 6 ∧
    (derive_tick_labels t w).yticks.length = 6 ∧
    (derive_tick_labels t w).xlabels.length = 6 ∧
    (derive_tick_labels t w).ylabels.length = 6 ∧
    (derive_tick_labels t w).xticks =
      [w.x_min, w.x_min + (w.x_max - w.x_min) / 5, w.x_min + (w.x_max - w.x_min) * 2 / 5,
       w.x_min + (w.x_max - w.x_min) * 3 / 5, w.x_min + (w.x_max - w.x_min) * 4 / 5,
       w.x_max] ∧
    (derive_tick_labels t w).yticks =
      [w.y_min, w.y_min + (w.y_max - w.y_min) / 5, w.y_min + (w.y_max - w.y_min) * 2 / 5,
       w.y_min + (w.y_max - w.y_min) * 3 / 5, w.y_min + (w.y_max - w.y_min) * 4 / 5,
       w.y_max] ∧
    (derive_tick_labels t w).xlabels =
      [fmtDeg (t w.x_min w.y_min).1,
       fmtDeg ((t w.x_min w.y_min).1 + ((t w.x_max w.y_max).1 - (t w.x_min w.y_min).1) / 5),
       fmtDeg ((t w.x_min w.y_min).1 + ((t w.x_max w.y_max).1 - (t w.x_min w.y_min).1) * 2 / 5),
       fmtDeg ((t w.x_min w.y_min).1 + ((t w.x_max w.y_max).1 - (t w.x_min w.y_min).1) * 3 / 5),
       fmtDeg ((t w.x_min w.y_min).1 + ((t w.x_max w.y_max).1 - (t w.x_min w.y_min).1) * 4 / 5),
       fmtDeg (t w.x_max w.y_max).1] ∧
    (derive_tick_labels t w).ylabels =
      [fmtDeg (t w.x_min w.y_min).2,
       fmtDeg ((t w.x_min w.y_min).2 + ((t w.x_max w.y_max).2 - (t w.x_min w.y_min).2) / 5),
       fmtDeg ((t w.x_min w.y_min).2 + ((t w.x_max w.y_max).2 - (t w.x_min w.y_min).2) * 2 / 5),
       fmtDeg ((t w.x_min w.y_min).2 + ((t w.x_max w.y_max).2 - (t w.x_min w.y_min).2) * 3 / 5),
       fmtDeg ((t w.x_min w.y_min).2 + ((t w.x_max w.y_max).2 - (t w.x_min w.y_min).2) * 4 / 5),
       fmtDeg (t w.x_max w.y_max).2] ∧
    (derive_tick_labels t w).xlabels.Forall OneDecimalDegreeLabel ∧
    (derive_tick_labels t w).ylabels.Forall OneDecimalDegreeLabel := by
  have hlab : ∀ a b : ℚ, (linspace a b 6).map fmtDeg =
      [fmtDeg a, fmtDeg (a + (b - a) / 5), fmtDeg (a + (b - a) * 2 / 5),
       fmtDeg (a + (b - a) * 3 / 5), fmtDeg (a + (b - a) * 4 / 5), fmtDeg b] := by
    intro a b
    rw [linspace_six]
    rfl
  have hforall : ∀ a b : ℚ, ((linspace a b 6).map fmtDeg).Forall OneDecimalDegreeLabel := by
    intro a b
    rw [hlab]
    simp only [List.Forall]
    exact ⟨fmtDeg_oneDecimal _, fmtDeg_oneDecimal _, fmtDeg_oneDecimal _,
           fmtDeg_oneDecimal _, fmtDeg_oneDecimal _, fmtDeg_oneDecimal _⟩
  simp only [derive_tick_labels]
  exact ⟨by rw [linspace_six]; rfl, by rw [linspace_six]; rfl,
         by rw [hlab]; rfl, by rw [hlab]; rfl,
         linspace_six _ _, linspace_six _ _, hlab _ _, hlab _ _,
         hforall _ _, hforall _ _⟩

/-- C7 counterexample: with zero points selected (an empty filtered frame)
`plot_flight_trajectory_events` does not raise at all: it prints a message
and returns `None` normally, so no error reaches the caller. -/
theorem empty_trajectory_events_no_error :
    ¬ ∃ e, plot_flight_trajectory_events_guard 0 = Except.error e := by
  rintro ⟨e, h⟩
  simp [plot_flight_trajectory_events_guard] at h

/-- C7 amended: `plot_airspace` raises an invalid-input error for fewer than
3 polygon points and proceeds otherwise, while
`plot_flight_trajectory_events` with an empty (zero-point) selection returns
early and normally with `None` rather than raising. -/
theorem geometry_minimum_points_guards (n m : ℕ) (hn : n < 3) (hm : 3 ≤ m) :
    plot_airspace_guard n =
      Except.error (PlotError.invalidInput
        ("Not enough points to build a polygon (need >=3, got " ++ toString n ++ ")")) ∧
    plot_airspace_guard m = Except.ok () ∧
    plot_flight_trajectory_events_guard 0 = Except.ok none := by
  have hm' : ¬ m < 3 := not_lt.mpr hm
  refine ⟨?_, ?_, rfl⟩
  · simp [plot_airspace_guard, hn]
  · simp [plot_airspace_guard, hm']

/-- Witness for the amended C7 at 2 polygon points and a 4-point polygon. -/
theorem geometry_minimum_points_guards_witness :
    2 < 3 ∧ 3 ≤ 4 ∧
    (plot_airspace_guard 2 =
       Except.error (PlotError.invalidInput
         ("Not enough points to build a polygon (need >=3, got " ++ toString 2 ++ ")")) ∧
     plot_airspace_guard 4 = Except.ok () ∧
     plot_flight_trajectory_events_guard 0 = Except.ok none) :=
  ⟨by decide, by decide, geometry_minimum_points_guards 2 4 (by decide) (by decide)⟩

/-- C8: deriving the view window from the untouched (empty) extent state
yields the empty-state error at every padding fraction, and never a window. -/
theorem derive_view_window_empty_state (p : ℚ) :
    derive_view_window none p = Except.error PlotError.emptyState ∧
    ∀ w : BoundingBox, derive_view_window none p ≠ Except.ok w := by
  refine ⟨rfl, ?_⟩
  intro w h
  simp [derive_view_window] at h

/-- C9: merging a box fully contained in the current extent leaves the
extent unchanged. -/
theorem merge_subbox_unchanged (e b : BoundingBox)
    (h1 : e.x_min ≤ b.x_min) (h2 : b.x_max ≤ e.x_max)
    (h3 : e.y_min ≤ b.y_min) (h4 : b.y_max ≤ e.y_max) :
    merge (some e) b = some e := by
  simp only [merge, Option.some.injEq]
  ext
  · exact min_eq_left h1
  · exact max_eq_left h2
  · exact min_eq_left h3
  · exact max_eq_left h4

/-- Witness for C9: `{x:[2,5], y:[3,4]}` is contained in `{x:[0,10], y:[0,10]}`. -/
theorem merge_subbox_unchanged_witness :
    (0 : ℚ) ≤ 2 ∧ (5 : ℚ) ≤ 10 ∧ (0 : ℚ) ≤ 3 ∧ (4 : ℚ) ≤ 10 ∧
    merge (some ⟨0, 10, 0, 10⟩) ⟨2, 5, 3, 4⟩ = some ⟨0, 10, 0, 10⟩ :=
  ⟨by norm_num, by norm_num, by norm_num, by norm_num,
   merge_subbox_unchanged ⟨0, 10, 0, 10⟩ ⟨2, 5, 3, 4⟩
     (by norm_num) (by norm_num) (by norm_num) (by norm_num)⟩

/-- C10: merging a non-degenerate box into a non-degenerate, non-empty
extent never shrinks it — the merged extent contains the old one — and the
invariant `x_min ≤ x_max ∧ y_min ≤ y_max` is preserved. -/
theorem merge_extent_monotone (e b : BoundingBox)
    (he : Nondegenerate e) (_hb : Nondegenerate b) :
    ∃ g, merge (some e) b = some g ∧
      g.x_min ≤ e.x_min ∧ e.x_max ≤ g.x_max ∧ g.y_min ≤ e.y_min ∧ e.y_max ≤ g.y_max ∧
      Nondegenerate g := by
  refine ⟨_, rfl, min_le_left _ _, le_max_left _ _, min_le_left _ _, le_max_left _ _, ?_, ?_⟩
  · exact le_trans (min_le_left _ _) (le_trans he.1 (le_max_left _ _))
  · exact le_trans (min_le_left _ _) (le_trans he.2 (le_max_left _ _))

/-- Witness for C10 at two disjoint non-degenerate boxes. -/
theorem merge_extent_monotone_witness :
    Nondegenerate ⟨0, 1, 0, 1⟩ ∧ Nondegenerate ⟨2, 3, 2, 3⟩ ∧
    ∃ g, merge (some ⟨0, 1, 0, 1⟩) ⟨2, 3, 2, 3⟩ = some g ∧
      g.x_min ≤ 0 ∧ 1 ≤ g.x_max ∧ g.y_min ≤ 0 ∧ 1 ≤ g.y_max ∧ Nondegenerate g :=
  ⟨by decide, by decide, merge_extent_monotone _ _ (by decide) (by decide)⟩

end ECTL
